import Mathlib

/-!
Verification of the travel_rag retrieval-and-answer pipeline.

Shallow embedding of the core of the repository:
  * `src/rag/rag_chain.py` — `format_docs`, `create_conversational_rag_chain_with_sources`
    (its inner functions `retriever_with_check` and `smart_answer`);
  * `src/rag/memory.py` — the process-wide session store and its four operations;
  * `src/rag/citations.py` — `format_citations_detailed`, `format_citations_compact`.

Modelling conventions:
  * Python floats that only ever flow into f-strings and truthiness tests are
    modelled by `PyNum`, carrying the string produced by Python `str()` and the
    Python truthiness bit (`0.0` is falsy, every other float is truthy).
  * The language-model oracle is an abstract function from the prompt variables
    (`PromptX`, the dict built by `retriever_with_check`) to `Except String String`;
    `Except.error` models the oracle raising.  Invocations of the oracle are
    recorded in a trace list so that call counts are observable.
  * The Python dict `_session_store` is modelled as an insertion-ordered
    association list with unique keys, mutated by explicit state passing.
  * A Python function that falls off the end returns `None`; return values of
    such functions are modelled by `PyRet`.
-/

set_option autoImplicit false

namespace TravelRag

/-! ## Data model -/

/-- A Python float as observed by the citation formatter: its `str()` rendering
and its truthiness (`0.0`/`-0.0` are falsy, all other floats truthy). -/
structure PyNum where
  render : String
  truthy : Bool
deriving DecidableEq

/-- The metadata fields of a retrieved document that the formatters read via
`doc.metadata.get(...)`; `none` models an absent key (Python `.get` → `None`). -/
structure Metadata where
  name : Option String := none
  city : Option String := none
  state : Option String := none
  country : Option String := none
  lat : Option PyNum := none
  lon : Option PyNum := none
deriving DecidableEq

/-- A LangChain `Document`: page content plus metadata. -/
structure Doc where
  page_content : String
  metadata : Metadata
deriving DecidableEq

/-- `format_docs` (rag_chain.py line 22): join the page contents with a blank
line between consecutive documents. -/
def format_docs (docs : List Doc) : String :=
  String.intercalate "\n\n" (docs.map (fun d => d.page_content))

/-! ## Session memory (`src/rag/memory.py`) -/

/-- A conversation turn stored in a `ChatMessageHistory`. -/
inductive Msg where
  | human (content : String)
  | ai (content : String)
deriving DecidableEq

/-- `ChatMessageHistory`: an ordered list of messages, appended at the end. -/
structure ChatMessageHistory where
  messages : List Msg := []
deriving DecidableEq

/-- The process-wide `_session_store` dict: insertion-ordered association list
from session id to history. -/
abbrev SessionStore := List (String × ChatMessageHistory)

/-- Python `session_id in _session_store` / `_session_store[session_id]`. -/
def lookupSession : SessionStore → String → Option ChatMessageHistory
  | [], _ => none
  | (k, h) :: rest, sid => if k = sid then some h else lookupSession rest sid

/-- `get_session_history` (memory.py line 42): register an empty history when
the id is absent (a dict insert goes at the end), then return the stored
history.  Returns the updated store and the history. -/
def get_session_history (store : SessionStore) (session_id : String) :
    SessionStore × ChatMessageHistory :=
  match lookupSession store session_id with
  | some h => (store, h)
  | none => (store ++ [(session_id, ⟨[]⟩)], ⟨[]⟩)

/-- The value returned by a Python function: `None`, or a bool. -/
inductive PyRet where
  | none
  | bool (b : Bool)
deriving DecidableEq

/-- Python `del _session_store[session_id]` on an association list. -/
def removeSession : SessionStore → String → SessionStore
  | [], _ => []
  | (k, h) :: rest, sid => if k = sid then rest else (k, h) :: removeSession rest sid

/-- `clear_session_history` (memory.py line 59): delete the entry when present
(logging a warning), log a warning otherwise; either way the function body has
no `return`, so it returns `None`. -/
def clear_session_history (store : SessionStore) (session_id : String) :
    SessionStore × PyRet :=
  if (lookupSession store session_id).isSome then
    (removeSession store session_id, PyRet.none)
  else
    (store, PyRet.none)

/-- `get_all_sessions` (memory.py line 73): `list(_session_store.keys())`. -/
def get_all_sessions (store : SessionStore) : List String :=
  store.map (fun p => p.1)

/-! ## The conversational chain (`src/rag/rag_chain.py` lines 171-203) -/

/-- The input dict handed to the chain: the question and the session's
chat history injected by the history wrapper. -/
structure ChainInput where
  question : String
  chat_history : List Msg
deriving DecidableEq

/-- The dict `x` produced by `retriever_with_check` and consumed by
`smart_answer`; these are exactly the prompt variables of the
conversational prompt template. -/
structure PromptX where
  question : String
  chat_history : List Msg
  docs : List Doc
  context : String
deriving DecidableEq

/-- The fixed fallback answer of `smart_answer` (rag_chain.py line 190). -/
def fallback_message : String :=
  "I don't have information about that in my database. Please try asking about Seattle tourist attractions."

/-- `retriever_with_check` (rag_chain.py line 175): retrieve, then build the
dict with the formatted context (empty string when no documents). -/
def retriever_with_check (retrieve : String → List Doc) (x : ChainInput) : PromptX :=
  let docs := retrieve x.question
  { question := x.question
    chat_history := x.chat_history
    docs := docs
    context := if docs.isEmpty then "" else format_docs docs }

/-- The chain's output dict `{"answer": ..., "source_documents": ...}`. -/
structure ChainResult where
  answer : String
  source_documents : List Doc
deriving DecidableEq

/-- `smart_answer` (rag_chain.py line 186), instrumented with a trace of the
prompts the language-model oracle was invoked with: on empty `docs` return the
fallback without touching the oracle; otherwise invoke the oracle once on `x`. -/
def smart_answer (llm : PromptX → Except String String) (x : PromptX) :
    Except String (String × List PromptX) :=
  if x.docs.isEmpty then
    Except.ok (fallback_message, [])
  else
    match llm x with
    | Except.ok a => Except.ok (a, [x])
    | Except.error e => Except.error e

/-- The full chain (rag_chain.py line 196): `retriever_with_check` piped into
the parallel of `smart_answer` and the source-document projection.  The second
component of a successful result is the trace of oracle invocations. -/
def chain_invoke (retrieve : String → List Doc) (llm : PromptX → Except String String)
    (input : ChainInput) : Except String (ChainResult × List PromptX) :=
  match smart_answer llm (retriever_with_check retrieve input) with
  | Except.ok (a, calls) =>
      Except.ok ({ answer := a,
                   source_documents := (retriever_with_check retrieve input).docs }, calls)
  | Except.error e => Except.error e

/-- Assignment `_session_store[sid] = h` for an already-registered id. -/
def updateSession : SessionStore → String → ChatMessageHistory → SessionStore
  | [], _, _ => []
  | (k, h) :: rest, sid, h2 =>
      if k = sid then (k, h2) :: rest else (k, h) :: updateSession rest sid h2

/-- Modelled from the spec: the `RunnableWithMessageHistory` wrapper
(instantiated in `scripts/test_rag.py` lines 59-65, library code not in this
repository).  Per spec §4.3: load the session history, run the chain with it
as `chat_history`, and only after a successful generation append the human
turn then the assistant turn to the session; a failed generation propagates
the error and appends nothing. -/
def answer_session (retrieve : String → List Doc) (llm : PromptX → Except String String)
    (store : SessionStore) (session_id question : String) :
    SessionStore × Except String ChainResult :=
  match chain_invoke retrieve llm
      { question := question,
        chat_history := (get_session_history store session_id).2.messages } with
  | Except.error e => ((get_session_history store session_id).1, Except.error e)
  | Except.ok (r, _) =>
      (updateSession (get_session_history store session_id).1 session_id
        ⟨(get_session_history store session_id).2.messages ++
          [Msg.human question, Msg.ai r.answer]⟩,
       Except.ok r)

/-- Modelled from the spec: a direct append of turns to a session's history
(`history.add_user_message` / `add_ai_message`, library code not in this
repository): mutate the history object registered under `sid`. -/
def add_turns (store : SessionStore) (sid : String) (msgs : List Msg) : SessionStore :=
  updateSession (get_session_history store sid).1 sid
    ⟨(get_session_history store sid).2.messages ++ msgs⟩

/-- A sequence of `answer()` calls, each `(session_id, question)`, threaded
through the store. -/
def run_calls (retrieve : String → List Doc) (llm : PromptX → Except String String) :
    SessionStore → List (String × String) → SessionStore
  | store, [] => store
  | store, (sid, q) :: rest =>
      run_calls retrieve llm (answer_session retrieve llm store sid q).1 rest

/-- A transcript is well-paired: a concatenation of human/assistant pairs. -/
def paired : List Msg → Bool
  | [] => true
  | Msg.human _ :: Msg.ai _ :: rest => paired rest
  | _ => false

/-- Every history registered in the store is well-paired. -/
def store_paired (store : SessionStore) : Prop :=
  ∀ p ∈ store, paired p.2.messages = true

/-! ## Citation formatting (`src/rag/citations.py`) -/

/-- Python `"=" * 70`. -/
def eq_line : String := String.mk (List.replicate 70 (Char.ofNat 61))

/-- Python truthiness of an optional float: `None` and `0.0` are falsy. -/
def optTruthy : Option PyNum → Bool
  | none => false
  | some n => n.truthy

/-- The `citation_parts` list built for one document in
`format_citations_detailed` (citations.py lines 71-88); `i` is the 1-based
ordinal.  The coordinate line is appended only when `lat and lon` is truthy. -/
def citation_parts (i : Nat) (d : Doc) : List String :=
  let name := d.metadata.name.getD "Unknown"
  let city := d.metadata.city.getD "Unknown"
  let st := d.metadata.state.getD "Unknown"
  let country := d.metadata.country.getD "Unknown"
  let parts := ["\n" ++ eq_line,
                "📌 Source " ++ toString i ++ ": " ++ name,
                eq_line,
                "\n📍 Location: " ++ city ++ ", " ++ st ++ ", " ++ country]
  let parts :=
    match d.metadata.lat, d.metadata.lon with
    | some la, some lo =>
        if la.truthy && lo.truthy then
          parts ++ ["📐 Coordinates: (" ++ la.render ++ ", " ++ lo.render ++ ")"]
        else parts
    | _, _ => parts
  parts ++ ["📄 Content:\n" ++ d.page_content]

/-- `format_citations_detailed` (citations.py line 39). -/
def format_citations_detailed (source_documents : List Doc) : String :=
  if source_documents.isEmpty then "No sources available"
  else
    String.intercalate "\n"
      (source_documents.enum.map
        (fun p => String.intercalate "\n" (citation_parts (p.1 + 1) p.2)))

/-- `format_citations_compact` (citations.py line 95). -/
def format_citations_compact (source_documents : List Doc) : String :=
  if source_documents.isEmpty then "No sources available"
  else
    String.intercalate "\n\n"
      (source_documents.enum.map
        (fun p =>
          String.intercalate "\n"
            ["[" ++ toString (p.1 + 1) ++ "] " ++ p.2.metadata.name.getD "Unknown" ++
               " (" ++ p.2.metadata.city.getD "Unknown" ++ ", " ++
               p.2.metadata.state.getD "Unknown" ++ ")",
             "    " ++ p.2.page_content]))

/-! ## String observation helpers -/

/-- `pre` is a leading substring of `s` (on the underlying character lists). -/
def strStartsWith (s pre : String) : Bool :=
  pre.data.isPrefixOf s.data

/-- `sub` occurs contiguously in `l` starting at some position. -/
def listInfix (sub : List Char) : List Char → Bool
  | [] => sub.isEmpty
  | c :: rest => sub.isPrefixOf (c :: rest) || listInfix sub rest

/-- `sub` occurs contiguously inside `s` (on the underlying character lists). -/
def strContains (s sub : String) : Bool :=
  listInfix sub.data s.data

/-! ## Concrete sample inputs -/

/-- The sample record of the spec's citation example: `str(47.620)` is `"47.62"`
and `str(-122.349)` is `"-122.349"` in Python; both coordinates are truthy. -/
def space_needle_doc : Doc :=
  { page_content := "Name: Space Needle. An observation tower in Seattle.",
    metadata := { name := some "Space Needle", city := some "Seattle",
                  state := some "Washington", country := some "United States of America",
                  lat := some { render := "47.62", truthy := true },
                  lon := some { render := "-122.349", truthy := true } } }

/-- A record whose latitude is present and non-null but equal to `0.0`
(`str(0.0) = "0.0"`, and `0.0` is falsy in Python). -/
def zero_lat_doc : Doc :=
  { page_content := "Name: Null Island Buoy.",
    metadata := { name := some "Null Island Buoy", city := some "Gulf of Guinea",
                  state := some "Intl Waters", country := some "None",
                  lat := some { render := "0.0", truthy := false },
                  lon := some { render := "10.0", truthy := true } } }

/-- A concrete retrieved document used by witnesses. -/
def doc_a : Doc := { page_content := "Name: Space Needle", metadata := {} }

/-- A second concrete retrieved document used by witnesses. -/
def doc_b : Doc := { page_content := "Name: Pike Place Market", metadata := {} }

/-! ## Helper lemmas about the session store -/

lemma lookupSession_append_of_none (l₁ l₂ : SessionStore) (sid : String)
    (h : lookupSession l₁ sid = none) :
    lookupSession (l₁ ++ l₂) sid = lookupSession l₂ sid := by
  induction l₁ with
  | nil => rfl
  | cons p rest ih =>
    obtain ⟨k, hh⟩ := p
    by_cases hk : k = sid
    · simp [lookupSession, hk] at h
    · simp only [lookupSession, hk, if_false, List.cons_append] at h ⊢
      exact ih h

lemma lookupSession_append_of_some (l₁ l₂ : SessionStore) (sid : String)
    (h' : ChatMessageHistory) (h : lookupSession l₁ sid = some h') :
    lookupSession (l₁ ++ l₂) sid = some h' := by
  induction l₁ with
  | nil => cases h
  | cons p rest ih =>
    obtain ⟨k, hh⟩ := p
    by_cases hk : k = sid
    · simp [lookupSession, hk] at h ⊢
      exact h
    · simp only [lookupSession, hk, if_false, List.cons_append] at h ⊢
      exact ih h

lemma lookupSession_none_of_not_mem (store : SessionStore) (sid : String)
    (h : sid ∉ store.map (fun p => p.1)) :
    lookupSession store sid = none := by
  induction store with
  | nil => rfl
  | cons p rest ih =>
    obtain ⟨k, hh⟩ := p
    simp only [List.map_cons, List.mem_cons] at h
    push_neg at h
    simp only [lookupSession]
    rw [if_neg (fun hk : k = sid => h.1 hk.symm)]
    exact ih h.2

lemma get_session_history_lookup (store : SessionStore) (sid : String) :
    lookupSession (get_session_history store sid).1 sid =
      some (get_session_history store sid).2 := by
  unfold get_session_history
  cases hl : lookupSession store sid with
  | some h => simpa using hl
  | none =>
    simp only
    rw [lookupSession_append_of_none _ _ _ hl]
    simp [lookupSession]

lemma get_session_history_of_some (store : SessionStore) (sid : String)
    (h : ChatMessageHistory) (hl : lookupSession store sid = some h) :
    get_session_history store sid = (store, h) := by
  simp [get_session_history, hl]

lemma get_session_history_idem (store : SessionStore) (sid : String) :
    get_session_history (get_session_history store sid).1 sid =
      get_session_history store sid := by
  rw [get_session_history_of_some _ _ _ (get_session_history_lookup store sid)]

lemma lookupSession_register_other (store : SessionStore) (A B : String)
    (hne : B ≠ A) :
    lookupSession (get_session_history store A).1 B = lookupSession store B := by
  unfold get_session_history
  cases hl : lookupSession store A with
  | some h => rfl
  | none =>
    simp only
    cases hb : lookupSession store B with
    | some hB => exact lookupSession_append_of_some _ _ _ _ hb
    | none =>
      rw [lookupSession_append_of_none _ _ _ hb]
      simp only [lookupSession]
      exact if_neg (fun h : A = B => hne h.symm)

lemma lookupSession_update_other (store : SessionStore) (sid B : String)
    (h2 : ChatMessageHistory) (hne : B ≠ sid) :
    lookupSession (updateSession store sid h2) B = lookupSession store B := by
  induction store with
  | nil => rfl
  | cons p rest ih =>
    obtain ⟨k, hh⟩ := p
    by_cases hk : k = sid
    · subst hk
      simp only [updateSession, if_pos rfl]
      simp only [lookupSession]
      rw [if_neg (fun h : k = B => hne h.symm), if_neg (fun h : k = B => hne h.symm)]
    · simp only [updateSession, hk, if_false]
      by_cases hkb : k = B
      · simp [lookupSession, hkb]
      · simp only [lookupSession, hkb, if_false]
        exact ih

lemma lookupSession_update_self (store : SessionStore) (sid : String)
    (h2 h0 : ChatMessageHistory) (hl : lookupSession store sid = some h0) :
    lookupSession (updateSession store sid h2) sid = some h2 := by
  induction store with
  | nil => cases hl
  | cons p rest ih =>
    obtain ⟨k, hh⟩ := p
    by_cases hk : k = sid
    · simp only [updateSession, hk, if_pos rfl]
      simp [lookupSession]
    · simp only [lookupSession, hk, if_false] at hl
      simp only [updateSession, hk, if_false, lookupSession]
      exact ih hl

lemma mem_updateSession (store : SessionStore) (sid : String)
    (h2 : ChatMessageHistory) (p : String × ChatMessageHistory)
    (hp : p ∈ updateSession store sid h2) :
    p ∈ store ∨ p.2 = h2 := by
  induction store with
  | nil => cases hp
  | cons q rest ih =>
    obtain ⟨k, hh⟩ := q
    by_cases hk : k = sid
    · simp only [updateSession, hk, if_pos rfl] at hp
      cases hp with
      | head => right; rfl
      | tail _ h1 => left; exact List.mem_cons_of_mem _ h1
    · simp only [updateSession, hk, if_false] at hp
      cases hp with
      | head => left; exact List.mem_cons_self _ _
      | tail _ h1 =>
        cases ih h1 with
        | inl h3 => left; exact List.mem_cons_of_mem _ h3
        | inr h3 => right; exact h3

lemma mem_lookupSession (store : SessionStore) (sid : String)
    (h : ChatMessageHistory) (hl : lookupSession store sid = some h) :
    (sid, h) ∈ store := by
  induction store with
  | nil => cases hl
  | cons p rest ih =>
    obtain ⟨k, hh⟩ := p
    by_cases hk : k = sid
    · simp [lookupSession, hk] at hl
      subst hk; subst hl
      exact List.mem_cons_self _ _
    · simp only [lookupSession, hk, if_false] at hl
      exact List.mem_cons_of_mem _ (ih hl)

lemma lookupSession_remove_self (store : SessionStore) (sid : String)
    (hnodup : (store.map (fun p => p.1)).Nodup) :
    lookupSession (removeSession store sid) sid = none := by
  induction store with
  | nil => rfl
  | cons p rest ih =>
    obtain ⟨k, hh⟩ := p
    simp only [List.map_cons, List.nodup_cons] at hnodup
    by_cases hk : k = sid
    · subst hk
      simp only [removeSession, if_pos rfl]
      exact lookupSession_none_of_not_mem _ _ hnodup.1
    · simp only [removeSession, hk, if_false, lookupSession]
      exact ih hnodup.2

lemma get_snd_eq_of_lookup_eq (s₁ s₂ : SessionStore) (B : String)
    (h : lookupSession s₁ B = lookupSession s₂ B) :
    (get_session_history s₁ B).2 = (get_session_history s₂ B).2 := by
  unfold get_session_history
  rw [h]
  cases lookupSession s₂ B <;> rfl

/-! ## Helper lemmas about transcripts and the pipeline -/

lemma paired_append_pair (l : List Msg) (q a : String) (h : paired l = true) :
    paired (l ++ [Msg.human q, Msg.ai a]) = true := by
  induction l using paired.induct <;> simp_all [paired]

lemma store_paired_get (store : SessionStore) (sid : String) (hp : store_paired store) :
    store_paired (get_session_history store sid).1 ∧
      paired (get_session_history store sid).2.messages = true := by
  unfold get_session_history
  cases hl : lookupSession store sid with
  | some h => exact ⟨hp, hp _ (mem_lookupSession store sid h hl)⟩
  | none =>
    refine ⟨?_, rfl⟩
    intro p hpmem
    rcases List.mem_append.mp hpmem with hm | hm
    · exact hp p hm
    · simp only [List.mem_singleton] at hm
      rw [hm]
      rfl

lemma store_paired_update (store : SessionStore) (sid : String) (h2 : ChatMessageHistory)
    (hp : store_paired store) (hh : paired h2.messages = true) :
    store_paired (updateSession store sid h2) := by
  intro p hpmem
  cases mem_updateSession store sid h2 p hpmem with
  | inl hm => exact hp p hm
  | inr hm => rw [hm]; exact hh

lemma store_paired_answer (retrieve : String → List Doc)
    (llm : PromptX → Except String String) (store : SessionStore) (sid q : String)
    (hp : store_paired store) :
    store_paired (answer_session retrieve llm store sid q).1 := by
  unfold answer_session
  cases hc : chain_invoke retrieve llm
      { question := q, chat_history := (get_session_history store sid).2.messages } with
  | error e => exact (store_paired_get store sid hp).1
  | ok r =>
    obtain ⟨r, calls⟩ := r
    exact store_paired_update _ _ _ (store_paired_get store sid hp).1
      (paired_append_pair _ _ _ (store_paired_get store sid hp).2)

lemma store_paired_run (retrieve : String → List Doc)
    (llm : PromptX → Except String String) (calls : List (String × String)) :
    ∀ store : SessionStore, store_paired store →
      store_paired (run_calls retrieve llm store calls) := by
  induction calls with
  | nil => intro store hp; exact hp
  | cons c rest ih =>
    obtain ⟨sid, q⟩ := c
    intro store hp
    exact ih _ (store_paired_answer retrieve llm store sid q hp)

/-! ## Helper lemmas about strings -/

lemma isPrefixOf_append_self (l t : List Char) : l.isPrefixOf (l ++ t) = true := by
  induction l with
  | nil => simp [List.isPrefixOf]
  | cons a as ih => simp [List.isPrefixOf, ih]

lemma data_head_append (s t : String) (c : Char) (h : s.data.head? = some c) :
    (s ++ t).data.head? = some c := by
  rw [String.data_append]
  cases hd : s.data with
  | nil => rw [hd] at h; cases h
  | cons a l =>
    rw [hd] at h
    simp only [List.head?_cons, Option.some.injEq] at h
    simp [List.cons_append, List.head?_cons, h]

lemma strStartsWith_false_of_head (s pre : String) (c c' : Char)
    (hs : s.data.head? = some c) (hp : pre.data.head? = some c')
    (h : (c' == c) = false) :
    strStartsWith s pre = false := by
  unfold strStartsWith
  cases hsd : s.data with
  | nil => rw [hsd] at hs; cases hs
  | cons a l =>
    cases hpd : pre.data with
    | nil => rw [hpd] at hp; cases hp
    | cons b m =>
      rw [hsd] at hs
      rw [hpd] at hp
      simp only [List.head?_cons, Option.some.injEq] at hs hp
      subst hs
      subst hp
      simp [List.isPrefixOf, h]

lemma not_coord_p1 : strStartsWith ("\n" ++ eq_line) "📐 Coordinates:" = false :=
  strStartsWith_false_of_head _ _ (Char.ofNat 10) (Char.ofNat 128208)
    (data_head_append _ _ _ rfl) rfl (by decide)

lemma not_coord_p2 (i : Nat) (nm : String) :
    strStartsWith ("📌 Source " ++ toString i ++ ": " ++ nm) "📐 Coordinates:" = false :=
  strStartsWith_false_of_head _ _ (Char.ofNat 128204) (Char.ofNat 128208)
    (data_head_append _ _ _ (data_head_append _ _ _ (data_head_append _ _ _ rfl))) rfl
    (by decide)

lemma not_coord_p3 : strStartsWith eq_line "📐 Coordinates:" = false :=
  strStartsWith_false_of_head _ _ (Char.ofNat 61) (Char.ofNat 128208) rfl rfl (by decide)

lemma not_coord_p4 (city st country : String) :
    strStartsWith ("\n📍 Location: " ++ city ++ ", " ++ st ++ ", " ++ country)
      "📐 Coordinates:" = false :=
  strStartsWith_false_of_head _ _ (Char.ofNat 10) (Char.ofNat 128208)
    (data_head_append _ _ _ (data_head_append _ _ _ (data_head_append _ _ _
      (data_head_append _ _ _ (data_head_append _ _ _ rfl))))) rfl (by decide)

lemma not_coord_p6 (content : String) :
    strStartsWith ("📄 Content:\n" ++ content) "📐 Coordinates:" = false :=
  strStartsWith_false_of_head _ _ (Char.ofNat 128196) (Char.ofNat 128208)
    (data_head_append _ _ _ rfl) rfl (by decide)

lemma coord_part_starts (la lo : String) :
    strStartsWith ("📐 Coordinates: (" ++ la ++ ", " ++ lo ++ ")") "📐 Coordinates:" = true := by
  unfold strStartsWith
  have h1 : ("📐 Coordinates: (" : String).data = "📐 Coordinates:".data ++ " (".data := rfl
  simp only [String.data_append, h1, List.append_assoc]
  exact isPrefixOf_append_self _ _

lemma chain_invoke_error (retrieve : String → List Doc)
    (llm : PromptX → Except String String) (input : ChainInput) (e : String)
    (hne : retrieve input.question ≠ [])
    (hllm : llm (retriever_with_check retrieve input) = Except.error e) :
    chain_invoke retrieve llm input = Except.error e := by
  have hfalse : (retrieve input.question).isEmpty = false := by
    cases hq : retrieve input.question with
    | nil => exact absurd hq hne
    | cons d l => rfl
  unfold chain_invoke smart_answer
  rw [show (retriever_with_check retrieve input).docs = retrieve input.question from rfl,
    hfalse]
  simp only [Bool.false_eq_true, if_false]
  rw [hllm]

lemma lookup_answer_other (retrieve : String → List Doc)
    (llm : PromptX → Except String String) (store : SessionStore) (A q B : String)
    (hne : B ≠ A) :
    lookupSession (answer_session retrieve llm store A q).1 B = lookupSession store B := by
  unfold answer_session
  cases hc : chain_invoke retrieve llm
      { question := q, chat_history := (get_session_history store A).2.messages } with
  | error e => exact lookupSession_register_other store A B hne
  | ok r =>
    obtain ⟨r, calls⟩ := r
    show lookupSession (updateSession (get_session_history store A).1 A
        ⟨(get_session_history store A).2.messages ++ [Msg.human q, Msg.ai r.answer]⟩) B =
      lookupSession store B
    rw [lookupSession_update_other _ _ _ _ hne]
    exact lookupSession_register_other store A B hne

lemma lookup_add_turns_other (store : SessionStore) (A B : String) (msgs : List Msg)
    (hne : B ≠ A) :
    lookupSession (add_turns store A msgs) B = lookupSession store B := by
  unfold add_turns
  rw [lookupSession_update_other _ _ _ _ hne]
  exact lookupSession_register_other store A B hne

lemma answer_session_cases (retrieve : String → List Doc)
    (llm : PromptX → Except String String) (store : SessionStore) (sid q : String) :
    (∃ r : ChainResult, ∃ calls2 : List PromptX,
      chain_invoke retrieve llm
          { question := q, chat_history := (get_session_history store sid).2.messages } =
        Except.ok (r, calls2) ∧
      answer_session retrieve llm store sid q =
        (updateSession (get_session_history store sid).1 sid
          ⟨(get_session_history store sid).2.messages ++ [Msg.human q, Msg.ai r.answer]⟩,
         Except.ok r)) ∨
    (∃ e : String,
      chain_invoke retrieve llm
          { question := q, chat_history := (get_session_history store sid).2.messages } =
        Except.error e ∧
      answer_session retrieve llm store sid q =
        ((get_session_history store sid).1, Except.error e)) := by
  cases hc : chain_invoke retrieve llm
      { question := q, chat_history := (get_session_history store sid).2.messages } with
  | ok pr =>
    obtain ⟨r, calls2⟩ := pr
    left
    refine ⟨r, calls2, rfl, ?_⟩
    unfold answer_session
    rw [hc]
  | error e =>
    right
    refine ⟨e, rfl, ?_⟩
    unfold answer_session
    rw [hc]

/-! ## Claim theorems -/

/-- C1: for every question and session history, if retrieval returns the empty
sequence then the chain skips the language-model oracle entirely (the trace of
oracle invocations is empty), the answer is the fixed fallback message, and the
returned source documents are the empty sequence. -/
theorem c1_empty_retrieval_short_circuits
    (retrieve : String → List Doc) (llm : PromptX → Except String String)
    (q : String) (hist : List Msg) (hempty : retrieve q = []) :
    chain_invoke retrieve llm { question := q, chat_history := hist } =
      Except.ok ({ answer := fallback_message, source_documents := [] }, []) := by
  simp [chain_invoke, smart_answer, retriever_with_check, hempty]

/-- Witness for C1: a concrete retriever returning nothing, with an oracle that
would answer if it were (wrongly) consulted. -/
theorem c1_witness :
    chain_invoke (fun _ => []) (fun _ => Except.ok "unused")
      { question := "Any museums on Mars?", chat_history := [] } =
      Except.ok ({ answer := fallback_message, source_documents := [] }, []) :=
  c1_empty_retrieval_short_circuits (fun _ => []) (fun _ => Except.ok "unused")
    "Any museums on Mars?" [] rfl

/-- C2: for every question and session history, if retrieval returns a
non-empty list of documents and the oracle answers, the chain returns exactly
those documents in retrieval order as the sources and invokes the oracle
exactly once, with prompt variables whose context is the documents' contents
concatenated in rank order separated by a blank line. -/
theorem c2_nonempty_retrieval_one_oracle_call
    (retrieve : String → List Doc) (llm : PromptX → Except String String)
    (q : String) (hist : List Msg) (docs : List Doc) (a : String)
    (hdocs : retrieve q = docs) (hne : docs ≠ [])
    (hllm : llm { question := q, chat_history := hist, docs := docs,
                  context := String.intercalate "\n\n"
                    (docs.map (fun d => d.page_content)) } =
      Except.ok a) :
    chain_invoke retrieve llm { question := q, chat_history := hist } =
      Except.ok ({ answer := a, source_documents := docs },
        [{ question := q, chat_history := hist, docs := docs,
           context := String.intercalate "\n\n" (docs.map (fun d => d.page_content)) }]) := by
  have hfalse : docs.isEmpty = false := by
    cases docs with
    | nil => exact absurd rfl hne
    | cons d l => rfl
  simp [chain_invoke, smart_answer, retriever_with_check, format_docs, hdocs, hfalse, hllm]

/-- Witness for C2: two concrete documents, a concrete oracle answer. -/
theorem c2_witness :
    chain_invoke (fun _ => [doc_a, doc_b]) (fun _ => Except.ok "It is a tower.")
      { question := "What is the Space Needle?", chat_history := [] } =
      Except.ok ({ answer := "It is a tower.", source_documents := [doc_a, doc_b] },
        [{ question := "What is the Space Needle?", chat_history := [],
           docs := [doc_a, doc_b],
           context := String.intercalate "\n\n"
             ([doc_a, doc_b].map (fun d => d.page_content)) }]) :=
  c2_nonempty_retrieval_one_oracle_call (fun _ => [doc_a, doc_b])
    (fun _ => Except.ok "It is a tower.") "What is the Space Needle?" [] [doc_a, doc_b]
    "It is a tower." rfl (by simp) rfl

/-- C3: if the oracle fails after a non-empty retrieval, the error propagates
(no partial answer) and the session's history as read back through
`get_session_history` is unchanged — in particular no orphaned human turn is
appended. -/
theorem c3_generation_failure_leaves_history_unchanged
    (retrieve : String → List Doc) (llm : PromptX → Except String String)
    (store : SessionStore) (sid q e : String)
    (hne : retrieve q ≠ [])
    (hllm : llm (retriever_with_check retrieve
        { question := q, chat_history := (get_session_history store sid).2.messages }) =
      Except.error e) :
    (answer_session retrieve llm store sid q).2 = Except.error e ∧
    (get_session_history (answer_session retrieve llm store sid q).1 sid).2 =
      (get_session_history store sid).2 := by
  have hchain : chain_invoke retrieve llm
      { question := q, chat_history := (get_session_history store sid).2.messages } =
      Except.error e :=
    chain_invoke_error retrieve llm _ e hne hllm
  constructor
  · unfold answer_session
    rw [hchain]
  · unfold answer_session
    rw [hchain]
    show (get_session_history (get_session_history store sid).1 sid).2 =
      (get_session_history store sid).2
    rw [get_session_history_idem]

/-- Witness for C3: concrete store, session, question, a one-document
retriever and an oracle that always fails. -/
theorem c3_witness :
    (answer_session (fun _ => [doc_a]) (fun _ => Except.error "boom") [] "s" "q").2 =
        Except.error "boom" ∧
    (get_session_history
        (answer_session (fun _ => [doc_a]) (fun _ => Except.error "boom") [] "s" "q").1
        "s").2 =
      (get_session_history [] "s").2 :=
  c3_generation_failure_leaves_history_unchanged (fun _ => [doc_a])
    (fun _ => Except.error "boom") [] "s" "q" "boom" (by simp) rfl

/-- C4: sessions are mutually isolated — for distinct ids `A ≠ B`, neither
answering in session A nor directly appending turns to A changes the history
read back for B. -/
theorem c4_session_isolation
    (retrieve : String → List Doc) (llm : PromptX → Except String String)
    (store : SessionStore) (A B q : String) (msgs : List Msg) (hne : A ≠ B) :
    (get_session_history (answer_session retrieve llm store A q).1 B).2 =
      (get_session_history store B).2 ∧
    (get_session_history (add_turns store A msgs) B).2 =
      (get_session_history store B).2 :=
  ⟨get_snd_eq_of_lookup_eq _ _ _
      (lookup_answer_other retrieve llm store A q B (Ne.symm hne)),
   get_snd_eq_of_lookup_eq _ _ _
      (lookup_add_turns_other store A B msgs (Ne.symm hne))⟩

/-- Witness for C4: sessions "alice" and "bob". -/
theorem c4_witness :
    (get_session_history (answer_session (fun _ => [doc_a]) (fun _ => Except.ok "ans")
        [] "alice" "q").1 "bob").2 = (get_session_history [] "bob").2 ∧
    (get_session_history (add_turns [] "alice" [Msg.human "hi"]) "bob").2 =
      (get_session_history [] "bob").2 :=
  c4_session_isolation (fun _ => [doc_a]) (fun _ => Except.ok "ans") [] "alice" "bob" "q"
    [Msg.human "hi"] (by decide)

/-- C5: strict append order and pairing.  A successful `answer()` call leaves
the session's history equal to the prior history with exactly the human turn
then the paired assistant turn appended at the tail (so turns are returned in
strict append order and are never reordered, dropped, or interleaved); a
failed call leaves it unchanged; and after any sequence of `answer()` calls,
every session's history read back through `get_session_history` is a sequence
of human-turn/assistant-turn pairs, each human turn immediately followed by
its assistant turn. -/
theorem c5_history_append_order_and_pairing
    (retrieve : String → List Doc) (llm : PromptX → Except String String)
    (store : SessionStore) (sid q : String) (calls : List (String × String))
    (hp : store_paired store) :
    (∀ r : ChainResult,
      (answer_session retrieve llm store sid q).2 = Except.ok r →
      (get_session_history (answer_session retrieve llm store sid q).1 sid).2.messages =
        (get_session_history store sid).2.messages ++ [Msg.human q, Msg.ai r.answer]) ∧
    (∀ e : String,
      (answer_session retrieve llm store sid q).2 = Except.error e →
      (get_session_history (answer_session retrieve llm store sid q).1 sid).2.messages =
        (get_session_history store sid).2.messages) ∧
    ∀ s : String,
      paired (get_session_history (run_calls retrieve llm store calls) s).2.messages =
        true := by
  refine ⟨?_, ?_,
    fun s => (store_paired_get _ s (store_paired_run retrieve llm calls store hp)).2⟩
  · intro r hr
    cases answer_session_cases retrieve llm store sid q with
    | inl h =>
      obtain ⟨r', calls2, hc, heq⟩ := h
      rw [heq] at hr
      simp only [Except.ok.injEq] at hr
      rw [heq]
      rw [get_session_history_of_some _ _ _
        (lookupSession_update_self _ _ _ _ (get_session_history_lookup store sid))]
      rw [hr]
    | inr h =>
      obtain ⟨e, hc, heq⟩ := h
      rw [heq] at hr
      cases hr
  · intro e hr
    cases answer_session_cases retrieve llm store sid q with
    | inl h =>
      obtain ⟨r', calls2, hc, heq⟩ := h
      rw [heq] at hr
      cases hr
    | inr h =>
      obtain ⟨e2, hc, heq⟩ := h
      rw [heq]
      show (get_session_history (get_session_history store sid).1 sid).2.messages =
        (get_session_history store sid).2.messages
      rw [get_session_history_idem]

/-- Witness for C5: one concrete successful call on an empty store — the new
history is exactly the appended human/assistant pair — and pairing after a
concrete call sequence. -/
theorem c5_witness :
    (get_session_history
        (answer_session (fun _ => [doc_a]) (fun _ => Except.ok "a") [] "s" "q").1
        "s").2.messages =
      (get_session_history [] "s").2.messages ++ [Msg.human "q", Msg.ai "a"] ∧
    paired (get_session_history
        (run_calls (fun _ => [doc_a]) (fun _ => Except.ok "a") [] [("s", "q")])
        "s").2.messages = true :=
  ⟨(c5_history_append_order_and_pairing (fun _ => [doc_a]) (fun _ => Except.ok "a") [] "s"
        "q" [("s", "q")] (fun p hp => absurd hp (List.not_mem_nil p))).1
      { answer := "a", source_documents := [doc_a] } rfl,
   (c5_history_append_order_and_pairing (fun _ => [doc_a]) (fun _ => Except.ok "a") [] "s"
        "q" [("s", "q")] (fun p hp => absurd hp (List.not_mem_nil p))).2.2 "s"⟩

/-- C6 counterexample: `clear_session_history` has no return statement, so it
returns Python `None` — not a boolean — both when the session is absent
(the claim says it returns false there) and when it is present. -/
theorem c6_counterexample :
    (clear_session_history [] "nonexistent").2 = PyRet.none ∧
    (clear_session_history [] "nonexistent").2 ≠ PyRet.bool false ∧
    (clear_session_history [("user_001", ⟨[]⟩)] "user_001").2 ≠ PyRet.bool true := by
  refine ⟨rfl, ?_, ?_⟩ <;> decide

/-- C6 amended: the clear-session operation removes the session when present,
is a logged no-op that does not raise when absent, and in both cases returns
`None` rather than a boolean. -/
theorem c6_clear_session_amended (store : SessionStore) (sid : String)
    (hnodup : (store.map (fun p => p.1)).Nodup) :
    (clear_session_history store sid).2 = PyRet.none ∧
    lookupSession (clear_session_history store sid).1 sid = none ∧
    (lookupSession store sid = none → (clear_session_history store sid).1 = store) := by
  cases hl : lookupSession store sid with
  | some h =>
    refine ⟨?_, ?_, ?_⟩
    · simp [clear_session_history, hl]
    · simp only [clear_session_history, hl, Option.isSome_some, if_true]
      exact lookupSession_remove_self store sid hnodup
    · intro hcontra
      simp [hl] at hcontra
  | none =>
    refine ⟨?_, ?_, ?_⟩
    · simp [clear_session_history, hl]
    · simp [clear_session_history, hl]
    · intro _
      simp [clear_session_history, hl]

/-- Witness for C6 (amended): a one-session store. -/
theorem c6_witness :
    (clear_session_history [("user_001", ⟨[]⟩)] "user_001").2 = PyRet.none ∧
    lookupSession (clear_session_history [("user_001", ⟨[]⟩)] "user_001").1 "user_001" =
      none ∧
    (lookupSession [("user_001", ⟨[]⟩)] "user_001" = none →
      (clear_session_history [("user_001", ⟨[]⟩)] "user_001").1 = [("user_001", ⟨[]⟩)]) :=
  c6_clear_session_amended [("user_001", ⟨[]⟩)] "user_001" (by simp)

/-- C7: `get_session_history` is idempotent — a second call with the same id
and no intervening writes returns the identical store and history — and on a
fresh id both calls observe the identical empty history. -/
theorem c7_get_or_create_idempotent (store : SessionStore) (sid : String) :
    get_session_history (get_session_history store sid).1 sid =
      get_session_history store sid ∧
    (lookupSession store sid = none →
      (get_session_history store sid).2.messages = [] ∧
      (get_session_history (get_session_history store sid).1 sid).2.messages = []) := by
  refine ⟨get_session_history_idem store sid, fun hfresh => ?_⟩
  have h2 : (get_session_history store sid).2.messages = [] := by
    simp [get_session_history, hfresh]
  refine ⟨h2, ?_⟩
  rw [get_session_history_idem]
  exact h2

/-- Witness for C7: a fresh id on the empty store. -/
theorem c7_witness :
    get_session_history (get_session_history [] "s").1 "s" = get_session_history [] "s" ∧
    ((get_session_history [] "s").2.messages = [] ∧
      (get_session_history (get_session_history [] "s").1 "s").2.messages = []) :=
  ⟨(c7_get_or_create_idempotent [] "s").1, (c7_get_or_create_idempotent [] "s").2 rfl⟩

set_option maxRecDepth 10000 in
/-- C8 counterexample: a record whose `lat` is present and non-null but equal
to `0.0` (falsy in Python): the claim says the coordinate line must be
emitted, yet the detailed output contains no coordinate line. -/
theorem c8_counterexample :
    zero_lat_doc.metadata.lat ≠ none ∧ zero_lat_doc.metadata.lon ≠ none ∧
    strContains (format_citations_detailed [zero_lat_doc]) "📐 Coordinates:" = false := by
  refine ⟨?_, ?_, ?_⟩ <;> decide

/-- C8 amended: in the detailed format, a record's parts list contains a
coordinate line iff both `lat` and `lon` are truthy in the Python sense —
the line is omitted iff either coordinate is absent, null, or zero (falsy),
not merely absent or null. -/
theorem c8_coordinate_line_iff_truthy (i : Nat) (d : Doc) :
    ((citation_parts i d).any (fun p => strStartsWith p "📐 Coordinates:")) =
      (optTruthy d.metadata.lat && optTruthy d.metadata.lon) := by
  unfold citation_parts
  cases hla : d.metadata.lat with
  | none =>
    cases hlo : d.metadata.lon with
    | none =>
      simp [optTruthy, not_coord_p1, not_coord_p2, not_coord_p3, not_coord_p4, not_coord_p6]
    | some lo =>
      simp [optTruthy, not_coord_p1, not_coord_p2, not_coord_p3, not_coord_p4, not_coord_p6]
  | some la =>
    cases hlo : d.metadata.lon with
    | none =>
      simp [optTruthy, not_coord_p1, not_coord_p2, not_coord_p3, not_coord_p4, not_coord_p6]
    | some lo =>
      cases hb : la.truthy && lo.truthy with
      | false =>
        simp [optTruthy, hb, not_coord_p1, not_coord_p2, not_coord_p3, not_coord_p4,
          not_coord_p6]
      | true =>
        simp [optTruthy, hb, not_coord_p1, not_coord_p2, not_coord_p3, not_coord_p4,
          not_coord_p6, coord_part_starts]

set_option maxRecDepth 10000 in
/-- C9: on the Space Needle sample record, the detailed output contains
"Source 1: Space Needle" and "Coordinates: (47.62, -122.349)", and the
compact output contains "[1] Space Needle (Seattle, Washington)". -/
theorem c9_sample_record_formatting :
    strContains (format_citations_detailed [space_needle_doc])
      "Source 1: Space Needle" = true ∧
    strContains (format_citations_detailed [space_needle_doc])
      "Coordinates: (47.62, -122.349)" = true ∧
    strContains (format_citations_compact [space_needle_doc])
      "[1] Space Needle (Seattle, Washington)" = true := by
  refine ⟨?_, ?_, ?_⟩ <;> decide

/-- C10: reading a fresh session's history is not side-effect-free: it
registers an empty history for that id in the store, so the id is afterwards
a member of `get_all_sessions`, though no turn was ever appended. -/
theorem c10_read_registers_session (store : SessionStore) (sid : String)
    (hfresh : lookupSession store sid = none) :
    sid ∈ get_all_sessions (get_session_history store sid).1 ∧
    lookupSession (get_session_history store sid).1 sid = some { messages := [] } ∧
    (get_session_history store sid).2.messages = [] := by
  refine ⟨?_, ?_, ?_⟩
  · simp [get_session_history, hfresh, get_all_sessions]
  · rw [get_session_history_lookup]
    simp [get_session_history, hfresh]
  · simp [get_session_history, hfresh]

/-- Witness for C10: a fresh id on the empty store. -/
theorem c10_witness :
    "s" ∈ get_all_sessions (get_session_history [] "s").1 ∧
    lookupSession (get_session_history [] "s").1 "s" = some { messages := [] } ∧
    (get_session_history [] "s").2.messages = [] :=
  c10_read_registers_session [] "s" rfl

end TravelRag
